import Mathlib

/-!
Shallow embedding of the event-processor pipeline of the abTestYazilim
repository (`packages/lambda/event-processor/index.ts`).

The durable store is modelled as an explicit state record (`DB`).  Every
`await db.*` write in the source is a primitive state transformer; the
transformers are threaded through a failure oracle (`Oracle`) so that
persistence errors (rejected promises) can be studied: a failing write
leaves the store unchanged and makes the surrounding handler abort, exactly
as a thrown exception does in the source.  Counter-bearing rows (Variant,
Experiment, ExperimentGoal) are modelled as total maps from their ids to
their counters.  Machine times are `Int` milliseconds since the Unix epoch;
an event's ISO-8601 `timestamp` string is represented by the instant
`new Date(evt.timestamp)` denotes.
-/

/-- Milliseconds in one calendar day. -/
def msPerDay : Int := 86400000

/-- Instant produced by `today.setHours(0, 0, 0, 0)` on a `Date` holding the
instant `now`: `now` truncated to local midnight, where `tz` is the server's
local-time offset in milliseconds east of UTC (daylight-saving shifts are not
modelled). -/
def dayKeyLocal (now tz : Int) : Int := now - (now + tz) % msPerDay

/-- JavaScript falsiness of an optional string: `!s` is true for a missing
field and for the empty string. -/
def blankS : Option String → Bool
  | none => true
  | some s => s == ""

/-- JavaScript `a || b` for an optional string `a` with default `b`. -/
def jsOr (a : Option String) (b : String) : String :=
  match a with
  | none => b
  | some s => if s == "" then b else s

/-- JavaScript `v || null` for an optional number (`0` is falsy). -/
def valOrNull (v : Option Int) : Option Int :=
  match v with
  | none => none
  | some n => if n == 0 then none else some n

/-- JavaScript truthiness of an optional number. -/
def truthyN (v : Option Int) : Bool :=
  match v with
  | none => false
  | some n => !(n == 0)

/-- Substring test on character lists (JavaScript `String.prototype.includes`). -/
def includesChars (hay needle : List Char) : Bool :=
  match hay with
  | [] => needle.isEmpty
  | c :: t => needle.isPrefixOf (c :: t) || includesChars t needle

/-- JavaScript `hay.includes(needle)`. -/
def strIncludes (hay needle : String) : Bool :=
  includesChars hay.toList needle.toList

/-- Lower-cased character list of a string. -/
def lowerChars (s : String) : List Char := s.toList.map Char.toLower

/-- Case-insensitive substring test, modelling the `/.../i` regexes used for
device classification. -/
def strIncludesCI (hay needle : String) : Bool :=
  includesChars (lowerChars hay) (lowerChars needle)

/-- Browser classification (`detectBrowser`, index.ts lines 408–415). -/
def detectBrowser (ua : String) : String :=
  if strIncludes ua "Chrome" && !(strIncludes ua "Edg") then "chrome"
  else if strIncludes ua "Firefox" then "firefox"
  else if strIncludes ua "Safari" && !(strIncludes ua "Chrome") then "safari"
  else if strIncludes ua "Edg" then "edge"
  else if strIncludes ua "Opera" || strIncludes ua "OPR" then "opera"
  else "other"

/-- Operating-system classification (`detectOS`, index.ts lines 420–427). -/
def detectOS (ua : String) : String :=
  if strIncludes ua "Windows" then "windows"
  else if strIncludes ua "Mac OS" then "mac"
  else if strIncludes ua "Linux" && !(strIncludes ua "Android") then "linux"
  else if strIncludes ua "Android" then "android"
  else if strIncludes ua "iPhone" || strIncludes ua "iPad" || strIncludes ua "iOS" then "ios"
  else "other"

/-- Device-type classification in `upsertVisitor` (index.ts lines 121–122). -/
def deviceTypeOf (ua : String) : String :=
  if strIncludesCI ua "Mobi" || strIncludesCI ua "Android" then "mobile"
  else if strIncludesCI ua "Tablet" || strIncludesCI ua "iPad" then "tablet"
  else "desktop"

/-- One entry of `attributedExperiments`. -/
structure Attribution where
  experimentId : String
  variantId : String
  deriving DecidableEq

/-- Decoded incoming event (`IncomingEvent` in shared/types). -/
structure IncomingEvent where
  projectId : Option String := none
  visitorId : Option String := none
  sessionId : Option String := none
  timestamp : Int := 0
  eventType : Option String := none
  url : Option String := none
  experimentId : Option String := none
  variantId : Option String := none
  variantName : Option String := none
  isControl : Option Bool := none
  goalId : Option String := none
  goalName : Option String := none
  goalType : Option String := none
  attributedExperiments : Option (List Attribution) := none
  eventName : Option String := none
  value : Option Int := none
  currency : Option String := none
  userAgent : Option String := none
  referrer : Option String := none
  deriving DecidableEq

/-- Result of the external `new URL(...).searchParams` lookups. -/
structure UtmInfo where
  source : Option String := none
  medium : Option String := none
  campaign : Option String := none
  deriving DecidableEq

/-- Ambient processing context: `now` is the wall clock (`Date.now()` /
`new Date()`) during handling, `tz` the server's local-time offset in
milliseconds east of UTC, and `utm` models the external `URL` parser applied
to the event's `url` (it returns no parameters when parsing throws, matching
the empty `catch`). -/
structure Ctx where
  now : Int := 0
  tz : Int := 0
  utm : Option String → UtmInfo := fun _ => {}

/-- One Visitor row. -/
structure VisitorRow where
  id : String
  projectId : String
  visitorId : String
  userAgent : String := ""
  deviceType : String := ""
  browser : String := ""
  os : String := ""
  referrer : Option String := none
  utmSource : Option String := none
  utmMedium : Option String := none
  utmCampaign : Option String := none
  firstSeen : Int := 0
  lastSeen : Int := 0
  visitCount : Nat := 0
  pageViews : Nat := 0
  deriving DecidableEq

/-- Payload written by `handleSessionStart` into `eventData`. -/
structure SessionStartData where
  sessionId : Option String
  referrer : Option String
  isSessionStart : Bool
  deriving DecidableEq

/-- Opaque `eventData` JSON column of an Event row. -/
inductive EventData where
  | noData : EventData
  | session : SessionStartData → EventData
  | raw : IncomingEvent → EventData
  deriving DecidableEq

/-- One append-only Event row. -/
structure EventRow where
  projectId : String
  visitorId : String
  experimentId : Option String := none
  variantId : Option String := none
  eventType : String
  eventName : Option String := none
  pageUrl : Option String := none
  eventData : EventData := .noData
  deriving DecidableEq

/-- One VariantAssignment row (unique per visitor/experiment pair). -/
structure AssignmentRow where
  visitorId : String
  experimentId : String
  variantId : String
  deriving DecidableEq

/-- One GoalConversion row. -/
structure GoalConversionRow where
  goalId : String
  experimentId : String
  variantId : String
  visitorId : String
  value : Option Int
  currency : String
  url : Option String
  timestamp : Int
  goalType : Option String
  deriving DecidableEq

/-- One ExperimentDailyStat row. -/
structure DailyStatRow where
  experimentId : String
  date : Int
  impressions : Nat
  conversions : Nat
  revenue : Int
  deriving DecidableEq

/-- Details JSON of a LiveLog row. -/
inductive LogDetails where
  | assigned : Option Bool → Option String → LogDetails
  | conversion : Option String → Option Int → Option String → LogDetails
  deriving DecidableEq

/-- One LiveLog row. -/
structure LiveLogRow where
  experimentId : String
  visitorId : Option String
  variantId : String
  logType : String
  message : String
  details : LogDetails
  expiresAt : Int
  deriving DecidableEq

/-- Counters of one Variant row. -/
structure VariantCtr where
  visitors : Nat := 0
  conversions : Nat := 0
  deriving DecidableEq

/-- Counters of one Experiment row. -/
structure ExpCtr where
  totalVisitors : Nat := 0
  totalConversions : Nat := 0
  deriving DecidableEq

/-- The durable store.  Counter-bearing rows are total maps from ids, each
entry holding that row's counters. -/
structure DB where
  visitors : List VisitorRow := []
  events : List EventRow := []
  assignments : List AssignmentRow := []
  goalConversions : List GoalConversionRow := []
  dailyStats : List DailyStatRow := []
  liveLogs : List LiveLogRow := []
  variants : String → VariantCtr := fun _ => {}
  experiments : String → ExpCtr := fun _ => {}
  experimentGoals : String → String → Nat := fun _ _ => 0

/-- Mutable processing state: the store plus the index of the next storage
operation (used to address failure points). -/
structure St where
  db : DB
  k : Nat

/-- Failure oracle: which storage-operation slots throw. -/
abbrev Oracle := Nat → Bool

/-- One storage write.  It consumes one operation slot; when the oracle marks
the slot as failing the write throws (store unchanged, result `false`),
otherwise the transformer is applied. -/
def wr (φ : Oracle) (s : St) (f : DB → DB) : St × Bool :=
  if φ s.k then ({ s with k := s.k + 1 }, false)
  else ({ db := f s.db, k := s.k + 1 }, true)

/-- Append an Event row. -/
def appendEvent (r : EventRow) (db : DB) : DB := { db with events := r :: db.events }

/-- Append a VariantAssignment row. -/
def appendAssignment (r : AssignmentRow) (db : DB) : DB :=
  { db with assignments := r :: db.assignments }

/-- Append a GoalConversion row. -/
def appendGoalConversion (r : GoalConversionRow) (db : DB) : DB :=
  { db with goalConversions := r :: db.goalConversions }

/-- Append a LiveLog row. -/
def appendLiveLog (r : LiveLogRow) (db : DB) : DB := { db with liveLogs := r :: db.liveLogs }

/-- Increment `visitCount` of the visitor row with database id `vid`. -/
def incVisitCount (vid : String) (db : DB) : DB :=
  { db with visitors := db.visitors.map fun r =>
      if r.id == vid then { r with visitCount := r.visitCount + 1 } else r }

/-- Increment the `visitors` counter of one Variant row. -/
def incVariantVisitors (w : String) (db : DB) : DB :=
  { db with variants := fun w' =>
      if w' = w then { db.variants w' with visitors := (db.variants w').visitors + 1 }
      else db.variants w' }

/-- Increment the `conversions` counter of one Variant row. -/
def incVariantConversions (w : String) (db : DB) : DB :=
  { db with variants := fun w' =>
      if w' = w then { db.variants w' with conversions := (db.variants w').conversions + 1 }
      else db.variants w' }

/-- Increment the `totalVisitors` counter of one Experiment row. -/
def incExpVisitors (x : String) (db : DB) : DB :=
  { db with experiments := fun x' =>
      if x' = x then { db.experiments x' with totalVisitors := (db.experiments x').totalVisitors + 1 }
      else db.experiments x' }

/-- Increment the `totalConversions` counter of one Experiment row. -/
def incExpConversions (x : String) (db : DB) : DB :=
  { db with experiments := fun x' =>
      if x' = x then { db.experiments x' with totalConversions := (db.experiments x').totalConversions + 1 }
      else db.experiments x' }

/-- Increment the `conversions` counter of the ExperimentGoal pairing
(`updateMany` keyed by experimentId and goalId). -/
def incExpGoal (x g : String) (db : DB) : DB :=
  { db with experimentGoals := fun x' g' =>
      if x' = x ∧ g' = g then db.experimentGoals x' g' + 1 else db.experimentGoals x' g' }

/-- Find a visitor row by the unique key (projectId, visitorId). -/
def findVisitor (db : DB) (p v : String) : Option VisitorRow :=
  db.visitors.find? fun r => r.projectId == p && r.visitorId == v

/-- Find a VariantAssignment row by the unique key (visitorId, experimentId). -/
def findAssignment (db : DB) (vid x : String) : Option AssignmentRow :=
  db.assignments.find? fun r => r.visitorId == vid && r.experimentId == x

/-- Key predicate of ExperimentDailyStat rows. -/
def statKeyMatch (x : String) (d : Int) (r : DailyStatRow) : Bool :=
  r.experimentId == x && r.date == d

/-- Find an ExperimentDailyStat row in a row list by its unique key. -/
def dailyFindL (l : List DailyStatRow) (x : String) (d : Int) : Option DailyStatRow :=
  l.find? (statKeyMatch x d)

/-- Find an ExperimentDailyStat row by the unique key (experimentId, date). -/
def dailyFind (db : DB) (x : String) (d : Int) : Option DailyStatRow :=
  dailyFindL db.dailyStats x d

/-- Kind of counter a daily-stat touch bumps. -/
inductive StatField where
  | impressions
  | conversions
  deriving DecidableEq

/-- Update branch of the daily-stat upsert: increment the touched counter and,
for a conversion carrying a truthy revenue, the revenue. -/
def incStatRow (field : StatField) (rev : Option Int) (r : DailyStatRow) : DailyStatRow :=
  match field with
  | .impressions => { r with impressions := r.impressions + 1 }
  | .conversions =>
      { r with conversions := r.conversions + 1,
               revenue := r.revenue + (if truthyN rev then rev.getD 0 else 0) }

/-- The daily-stat upsert on the row list: create when the key is absent
(touched counter 1, other counter 0, revenue `revenue || 0`), else increment
the matching row. -/
def updDailyList (today : Int) (x : String) (field : StatField) (rev : Option Int)
    (l : List DailyStatRow) : List DailyStatRow :=
  match dailyFindL l x today with
  | none =>
      { experimentId := x, date := today,
        impressions := if field = .impressions then 1 else 0,
        conversions := if field = .conversions then 1 else 0,
        revenue := rev.getD 0 } :: l
  | some _ => l.map fun r => if statKeyMatch x today r then incStatRow field rev r else r

/-- Store effect of `updateDailyStat` (index.ts lines 371–403): the row key is
the processing wall clock truncated to local midnight. -/
def updateDailyStatDb (ctx : Ctx) (x : String) (field : StatField) (rev : Option Int)
    (db : DB) : DB :=
  { db with dailyStats := updDailyList (dayKeyLocal ctx.now ctx.tz) x field rev db.dailyStats }

/-- updateDailyStat with its internal try/catch: the single upsert consumes an
operation slot but a failure is swallowed, so the caller always continues. -/
def updateDailyStat (φ : Oracle) (ctx : Ctx) (s : St) (x : String) (field : StatField)
    (rev : Option Int) : St :=
  if φ s.k then { s with k := s.k + 1 }
  else { db := updateDailyStatDb ctx x field rev s.db, k := s.k + 1 }

/-- Database id of a visitor row created by the model (generated ids are
modelled deterministically from the unique key). -/
def mkVisitorId (p v : String) : String := p ++ ":" ++ v

/-- Row built by the create branch of the visitor upsert (index.ts 142–157). -/
def mkVisitorRow (ctx : Ctx) (e : IncomingEvent) : VisitorRow :=
  let p := e.projectId.getD ""
  let v := e.visitorId.getD ""
  let ua := jsOr e.userAgent ""
  { id := mkVisitorId p v
    projectId := p
    visitorId := v
    userAgent := ua
    deviceType := deviceTypeOf ua
    browser := detectBrowser ua
    os := detectOS ua
    referrer := e.referrer
    utmSource := (ctx.utm e.url).source
    utmMedium := (ctx.utm e.url).medium
    utmCampaign := (ctx.utm e.url).campaign
    firstSeen := e.timestamp
    lastSeen := e.timestamp
    visitCount := 1
    pageViews := 1 }

/-- Store effect of `upsertVisitor` (index.ts lines 116–163). -/
def upsertVisitorDb (ctx : Ctx) (e : IncomingEvent) (db : DB) : DB :=
  match findVisitor db (e.projectId.getD "") (e.visitorId.getD "") with
  | some _ =>
      { db with visitors := db.visitors.map fun r =>
          if r.projectId == e.projectId.getD "" && r.visitorId == e.visitorId.getD ""
          then { r with lastSeen := e.timestamp, pageViews := r.pageViews + 1 } else r }
  | none => { db with visitors := mkVisitorRow ctx e :: db.visitors }

/-- Database id of the row returned by the visitor upsert against a given
store: the existing row's id, or the id the create branch generates. -/
def visDbId (db : DB) (p v : String) : String :=
  match findVisitor db p v with
  | some r => r.id
  | none => mkVisitorId p v

/-- upsertVisitor as one storage operation, returning the created or updated
row's database id on success. -/
def upsertVisitor (φ : Oracle) (ctx : Ctx) (s : St) (e : IncomingEvent) : St × Option String :=
  if φ s.k then ({ s with k := s.k + 1 }, none)
  else ({ db := upsertVisitorDb ctx e s.db, k := s.k + 1 },
        some (visDbId s.db (e.projectId.getD "") (e.visitorId.getD "")))

/-- Event row written by `handleSessionStart` (index.ts lines 176–188). -/
def sessionEventRow (vid : String) (e : IncomingEvent) : EventRow :=
  { projectId := e.projectId.getD ""
    visitorId := vid
    eventType := "PAGE_VIEW"
    pageUrl := e.url
    eventData := .session { sessionId := e.sessionId, referrer := e.referrer, isSessionStart := true } }

/-- Session-start handler (index.ts lines 168–189). -/
def handleSessionStart (φ : Oracle) (s : St) (vid : String) (e : IncomingEvent) : St × Bool :=
  let (s1, ok1) := wr φ s (incVisitCount vid)
  if ok1 then wr φ s1 (appendEvent (sessionEventRow vid e)) else (s1, false)

/-- Event row written by `handleExperimentView`. -/
def viewEventRow (vid x w : String) (e : IncomingEvent) : EventRow :=
  { projectId := e.projectId.getD ""
    visitorId := vid
    experimentId := some x
    variantId := some w
    eventType := "EXPERIMENT_VIEW"
    pageUrl := e.url }

/-- LiveLog row written by `handleExperimentView`. -/
def viewLogRow (ctx : Ctx) (x w : String) (e : IncomingEvent) : LiveLogRow :=
  { experimentId := x
    visitorId := e.visitorId
    variantId := w
    logType := "VISITOR_ASSIGNED"
    message := "Visitor assigned to " ++ jsOr e.variantName w
    details := .assigned e.isControl e.url
    expiresAt := ctx.now + msPerDay }

/-- Experiment-view handler (index.ts lines 194–262). -/
def handleExperimentView (φ : Oracle) (ctx : Ctx) (s : St) (vid : String)
    (e : IncomingEvent) : St × Bool :=
  if blankS e.experimentId || blankS e.variantId then (s, true)
  else
    let x := e.experimentId.getD ""
    let w := e.variantId.getD ""
    let (s1, ok1) :=
      match findAssignment s.db vid x with
      | some _ => (s, true)
      | none =>
          let (sa, oka) := wr φ s (appendAssignment { visitorId := vid, experimentId := x, variantId := w })
          if oka then
            let (sb, okb) := wr φ sa (incVariantVisitors w)
            if okb then
              let (sc, okc) := wr φ sb (incExpVisitors x)
              if okc then (updateDailyStat φ ctx sc x .impressions none, true)
              else (sc, false)
            else (sb, false)
          else (sa, false)
    if ok1 then
      let (s2, ok2) := wr φ s1 (appendEvent (viewEventRow vid x w e))
      if ok2 then wr φ s2 (appendLiveLog (viewLogRow ctx x w e))
      else (s2, false)
    else (s1, false)

/-- GoalConversion row written per attribution (index.ts lines 279–293). -/
def convRow (vid : String) (a : Attribution) (e : IncomingEvent) : GoalConversionRow :=
  { goalId := e.goalId.getD ""
    experimentId := a.experimentId
    variantId := a.variantId
    visitorId := vid
    value := valOrNull e.value
    currency := jsOr e.currency "TRY"
    url := e.url
    timestamp := e.timestamp
    goalType := e.goalType }

/-- LiveLog row written per attribution (index.ts lines 317–331). -/
def convLogRow (ctx : Ctx) (a : Attribution) (e : IncomingEvent) : LiveLogRow :=
  { experimentId := a.experimentId
    visitorId := e.visitorId
    variantId := a.variantId
    logType := "GOAL_CONVERSION"
    message := "Goal \"" ++ jsOr e.goalName (e.goalId.getD "") ++ "\" converted"
    details := .conversion e.goalType e.value e.url
    expiresAt := ctx.now + msPerDay }

/-- Attribution loop of `handleGoalConversion` (index.ts lines 275–332): six
storage operations per attribution, in source order; the daily-stat touch is
the only one whose failure is swallowed. -/
def goalConvLoop (φ : Oracle) (ctx : Ctx) (vid : String) (e : IncomingEvent) :
    St → List Attribution → St × Bool
  | s, [] => (s, true)
  | s, a :: rest =>
      let (s1, ok1) := wr φ s (appendGoalConversion (convRow vid a e))
      if ok1 then
        let (s2, ok2) := wr φ s1 (incVariantConversions a.variantId)
        if ok2 then
          let (s3, ok3) := wr φ s2 (incExpConversions a.experimentId)
          if ok3 then
            let (s4, ok4) := wr φ s3 (incExpGoal a.experimentId (e.goalId.getD ""))
            if ok4 then
              let s5 := updateDailyStat φ ctx s4 a.experimentId .conversions e.value
              let (s6, ok6) := wr φ s5 (appendLiveLog (convLogRow ctx a e))
              if ok6 then goalConvLoop φ ctx vid e s6 rest
              else (s6, false)
            else (s4, false)
          else (s3, false)
        else (s2, false)
      else (s1, false)

/-- Goal-conversion handler (index.ts lines 267–333). -/
def handleGoalConversion (φ : Oracle) (ctx : Ctx) (s : St) (vid : String)
    (e : IncomingEvent) : St × Bool :=
  if blankS e.goalId || e.attributedExperiments.isNone
      || (e.attributedExperiments.getD []).isEmpty then (s, true)
  else goalConvLoop φ ctx vid e s (e.attributedExperiments.getD [])

/-- Event row written by `handleCustomEvent` (index.ts lines 338–351). -/
def customEventRow (vid : String) (e : IncomingEvent) : EventRow :=
  { projectId := e.projectId.getD ""
    visitorId := vid
    experimentId := ((e.attributedExperiments.getD []).head?).map Attribution.experimentId
    variantId := ((e.attributedExperiments.getD []).head?).map Attribution.variantId
    eventType := "CUSTOM"
    eventName := e.eventName
    pageUrl := e.url
    eventData := .raw e }

/-- Custom-event handler. -/
def handleCustomEvent (φ : Oracle) (s : St) (vid : String) (e : IncomingEvent) : St × Bool :=
  wr φ s (appendEvent (customEventRow vid e))

/-- Event row written by `handleGenericEvent` (index.ts lines 356–366). -/
def genericEventRow (vid : String) (e : IncomingEvent) : EventRow :=
  { projectId := e.projectId.getD ""
    visitorId := vid
    eventType := e.eventType.getD ""
    pageUrl := e.url
    eventData := .raw e }

/-- Fallback handler for unrecognized event types. -/
def handleGenericEvent (φ : Oracle) (s : St) (vid : String) (e : IncomingEvent) : St × Bool :=
  wr φ s (appendEvent (genericEventRow vid e))

/-- Process one decoded event (`processEvent`, index.ts lines 79–111):
validation guard, visitor upsert, then routing by event type.  The result
flag is `false` exactly when a storage operation threw. -/
def processEvent (φ : Oracle) (ctx : Ctx) (s : St) (e : IncomingEvent) : St × Bool :=
  if blankS e.projectId || blankS e.visitorId || blankS e.eventType then (s, true)
  else
    match upsertVisitor φ ctx s e with
    | (s1, none) => (s1, false)
    | (s1, some vid) =>
        let et := e.eventType.getD ""
        if et = "SESSION_START" then handleSessionStart φ s1 vid e
        else if et = "EXPERIMENT_VIEW" then handleExperimentView φ ctx s1 vid e
        else if et = "GOAL_CONVERSION" then handleGoalConversion φ ctx s1 vid e
        else if et = "CUSTOM_EVENT" then handleCustomEvent φ s1 vid e
        else handleGenericEvent φ s1 vid e

/-- Oracle under which no storage operation fails: the success path. -/
def neverFail : Oracle := fun _ => false

/-- Success-path semantics of processing one event. -/
def run1 (ctx : Ctx) (db : DB) (e : IncomingEvent) : DB :=
  (processEvent neverFail ctx { db := db, k := 0 } e).1.db

/-- Per-event loop of the batch handler (index.ts lines 47–53): each event is
attempted with its own failure oracle; a thrown event is logged (counted) and
processing continues with the next event.  Returns the final store and the
number of events whose handling threw. -/
def runEvents (ψ : Nat → Oracle) (ctx : Ctx) : DB → List IncomingEvent → Nat → DB × Nat
  | db, [], _ => (db, 0)
  | db, e :: rest, i =>
      let (s, ok) := processEvent (ψ i) ctx { db := db, k := 0 } e
      let (db2, m) := runEvents ψ ctx s.db rest (i + 1)
      (db2, (if ok then 0 else 1) + m)

/-- Outcome entry pushed for one record. -/
structure RecordOutcome where
  recordId : String
  result : String
  data : String
  deriving DecidableEq

/-- Per-record processing after a successful decode (handler, index.ts lines
46–60): every decoded event is attempted, failures are caught per event, and
the record is emitted as accepted (`Ok`) with its original body. -/
def handleDecodedRecord (ψ : Nat → Oracle) (ctx : Ctx) (db : DB)
    (events : List IncomingEvent) (rid bodyData : String) : DB × RecordOutcome :=
  let (db2, _) := runEvents ψ ctx db events 0
  (db2, { recordId := rid, result := "Ok", data := bodyData })

/-- Daily-stat key as the specification words it (spec 4.6): the event's own
timestamp truncated to the UTC calendar date at 00:00.  Stated from the
spec's words, for comparison with the key the source actually uses. -/
def specDailyStatKey (ts : Int) : Int := ts - ts % msPerDay

/-- Impressions counter at a key in a daily-stat row list (0 when absent). -/
def dailyImpL (l : List DailyStatRow) (x : String) (d : Int) : Nat :=
  match dailyFindL l x d with
  | some r => r.impressions
  | none => 0

/-- Conversions counter at a key in a daily-stat row list (0 when absent). -/
def dailyConvL (l : List DailyStatRow) (x : String) (d : Int) : Nat :=
  match dailyFindL l x d with
  | some r => r.conversions
  | none => 0

/-- Impressions counter of the daily-stat row at a key (0 when absent). -/
def dailyImp (db : DB) (x : String) (d : Int) : Nat := dailyImpL db.dailyStats x d

/-- Conversions counter of the daily-stat row at a key (0 when absent). -/
def dailyConv (db : DB) (x : String) (d : Int) : Nat := dailyConvL db.dailyStats x d

/-- Store effect of one iteration of the goal-conversion attribution loop on
the success path (derived from `goalConvLoop`, proven below). -/
def convStep (ctx : Ctx) (vid : String) (e : IncomingEvent) (db : DB) (a : Attribution) : DB :=
  appendLiveLog (convLogRow ctx a e)
    (updateDailyStatDb ctx a.experimentId .conversions e.value
      (incExpGoal a.experimentId (e.goalId.getD "")
        (incExpConversions a.experimentId
          (incVariantConversions a.variantId
            (appendGoalConversion (convRow vid a e) db)))))

def exCtx : Ctx := { now := 2 * 86400000 + 123, tz := 0, utm := fun _ => {} }

def exView : IncomingEvent :=
  { projectId := some "p", visitorId := some "v", eventType := some "EXPERIMENT_VIEW",
    timestamp := 0, experimentId := some "e1", variantId := some "w1" }

def exEmptyConv : IncomingEvent :=
  { projectId := some "p", visitorId := some "v", eventType := some "GOAL_CONVERSION",
    timestamp := 0, goalId := some "g", attributedExperiments := some [] }

def exUA : String := "Mozilla/5.0 Chrome/120.0 Edg/120.0 Firefox/121.0"

def exViewNoVariant : IncomingEvent :=
  { projectId := some "p", visitorId := some "v", eventType := some "EXPERIMENT_VIEW",
    timestamp := 0, experimentId := some "e1" }

def exSession : IncomingEvent :=
  { projectId := some "p", visitorId := some "v", eventType := some "SESSION_START",
    timestamp := 0, sessionId := some "s1" }

def exDbRep : DB :=
  { assignments := [{ visitorId := "p:v", experimentId := "e1", variantId := "w1" }] }

def exConv2 : IncomingEvent :=
  { projectId := some "p", visitorId := some "v", eventType := some "GOAL_CONVERSION",
    timestamp := 0, goalId := some "g", value := some 7,
    attributedExperiments :=
      some [{ experimentId := "e1", variantId := "w1" },
            { experimentId := "e1", variantId := "w2" }] }

def exPage : IncomingEvent :=
  { projectId := some "p", visitorId := some "v", eventType := some "PAGE_VIEW",
    timestamp := 5 }

/-! ### Success-path reductions and store-operation lemmas -/

theorem wr_noFail (s : St) (f : DB → DB) :
    wr neverFail s f = ({ db := f s.db, k := s.k + 1 }, true) := rfl

theorem updateDailyStat_noFail (ctx : Ctx) (s : St) (x : String) (field : StatField)
    (rev : Option Int) :
    updateDailyStat neverFail ctx s x field rev
      = { db := updateDailyStatDb ctx x field rev s.db, k := s.k + 1 } := rfl

theorem upsertVisitor_noFail (ctx : Ctx) (s : St) (e : IncomingEvent) :
    upsertVisitor neverFail ctx s e
      = ({ db := upsertVisitorDb ctx e s.db, k := s.k + 1 },
         some (visDbId s.db (e.projectId.getD "") (e.visitorId.getD ""))) := rfl

theorem find?_map_invariant {α : Type} (p : α → Bool) (f : α → α)
    (hf : ∀ a, p (f a) = p a) :
    ∀ l : List α, (l.map f).find? p = (l.find? p).map f := by
  intro l
  induction l with
  | nil => rfl
  | cons a t ih =>
      simp only [List.map_cons, List.find?]
      rw [hf a]
      cases h : p a
      · simpa using ih
      · rfl

theorem incStatRow_experimentId (f : StatField) (rev : Option Int) (r : DailyStatRow) :
    (incStatRow f rev r).experimentId = r.experimentId := by
  cases f <;> rfl

theorem incStatRow_date (f : StatField) (rev : Option Int) (r : DailyStatRow) :
    (incStatRow f rev r).date = r.date := by
  cases f <;> rfl

theorem statKeyMatch_incStatRow (x : String) (d : Int) (f : StatField) (rev : Option Int)
    (r : DailyStatRow) :
    statKeyMatch x d (incStatRow f rev r) = statKeyMatch x d r := by
  simp [statKeyMatch, incStatRow_experimentId, incStatRow_date]

theorem statKeyMatch_bump (x : String) (today : Int) (y : String) (d : Int)
    (f : StatField) (rev : Option Int) (r : DailyStatRow) :
    statKeyMatch y d (if statKeyMatch x today r then incStatRow f rev r else r)
      = statKeyMatch y d r := by
  by_cases h : statKeyMatch x today r <;> simp [h, statKeyMatch_incStatRow]

theorem dailyFindL_mapBump (x : String) (today : Int) (f : StatField) (rev : Option Int)
    (l : List DailyStatRow) (y : String) (d : Int) :
    dailyFindL (l.map fun r => if statKeyMatch x today r then incStatRow f rev r else r) y d
      = (dailyFindL l y d).map fun r => if statKeyMatch x today r then incStatRow f rev r else r := by
  unfold dailyFindL
  exact find?_map_invariant _ _ (fun r => statKeyMatch_bump x today y d f rev r) l

theorem dailyConvL_cons (r : DailyStatRow) (l : List DailyStatRow) (y : String) (d : Int) :
    dailyConvL (r :: l) y d = if statKeyMatch y d r then r.conversions else dailyConvL l y d := by
  unfold dailyConvL dailyFindL
  cases h : statKeyMatch y d r <;> simp [List.find?, h]

theorem dailyImpL_cons (r : DailyStatRow) (l : List DailyStatRow) (y : String) (d : Int) :
    dailyImpL (r :: l) y d = if statKeyMatch y d r then r.impressions else dailyImpL l y d := by
  unfold dailyImpL dailyFindL
  cases h : statKeyMatch y d r <;> simp [List.find?, h]

theorem statKeyMatch_true_iff (x : String) (d : Int) (r : DailyStatRow) :
    statKeyMatch x d r = true ↔ r.experimentId = x ∧ r.date = d := by
  simp [statKeyMatch]

theorem statKeyMatch_false_of_ne (y : String) (d : Int) (x : String) (today : Int)
    (r : DailyStatRow) (hp : statKeyMatch y d r = true) (hk : ¬(y = x ∧ d = today)) :
    statKeyMatch x today r = false := by
  rw [statKeyMatch_true_iff] at hp
  obtain ⟨h1, h2⟩ := hp
  rcases not_and_or.mp hk with h | h
  · simp only [statKeyMatch, Bool.and_eq_false_iff]
    left
    simp only [beq_eq_false_iff_ne, ne_eq, h1]
    exact fun hh => h hh
  · simp only [statKeyMatch, Bool.and_eq_false_iff]
    right
    simp only [beq_eq_false_iff_ne, ne_eq, h2]
    exact fun hh => h hh

theorem dailyConvL_updDailyList (today : Int) (x : String) (f : StatField) (rev : Option Int)
    (l : List DailyStatRow) (y : String) (d : Int) :
    dailyConvL (updDailyList today x f rev l) y d
      = dailyConvL l y d + (if y = x ∧ d = today ∧ f = StatField.conversions then 1 else 0) := by
  cases hfind : dailyFindL l x today with
  | none =>
      simp only [updDailyList, hfind, dailyConvL_cons]
      by_cases hk : y = x ∧ d = today
      · obtain ⟨hy, hd⟩ := hk
        subst hy; subst hd
        have hpred : statKeyMatch y d
            ({ experimentId := y, date := d,
               impressions := if f = StatField.impressions then 1 else 0,
               conversions := if f = StatField.conversions then 1 else 0,
               revenue := rev.getD 0 } : DailyStatRow) = true := by
          simp [statKeyMatch]
        have h0 : dailyConvL l y d = 0 := by
          unfold dailyConvL
          rw [hfind]
        rw [hpred, h0]
        cases f <;> simp
      · have hpred : statKeyMatch y d
            ({ experimentId := x, date := today,
               impressions := if f = StatField.impressions then 1 else 0,
               conversions := if f = StatField.conversions then 1 else 0,
               revenue := rev.getD 0 } : DailyStatRow) = false := by
          rcases not_and_or.mp hk with h | h
          · simp only [statKeyMatch, Bool.and_eq_false_iff]
            left
            simp only [beq_eq_false_iff_ne, ne_eq]
            exact fun hh => h hh.symm
          · simp only [statKeyMatch, Bool.and_eq_false_iff]
            right
            simp only [beq_eq_false_iff_ne, ne_eq]
            exact fun hh => h hh.symm
        rw [hpred,
          if_neg (show ¬(y = x ∧ d = today ∧ f = StatField.conversions) from
            fun hh => hk ⟨hh.1, hh.2.1⟩)]
        simp
  | some r0 =>
      simp only [updDailyList, hfind]
      unfold dailyConvL
      rw [dailyFindL_mapBump]
      cases hyd : dailyFindL l y d with
      | none =>
          rw [if_neg (show ¬(y = x ∧ d = today ∧ f = StatField.conversions) from by
              intro hh
              obtain ⟨hy, hd, _⟩ := hh
              subst hy; subst hd
              rw [hyd] at hfind
              exact absurd hfind (by simp))]
          rfl
      | some r1 =>
          have hp : statKeyMatch y d r1 = true := by
            unfold dailyFindL at hyd
            exact List.find?_some hyd
          by_cases hk : y = x ∧ d = today
          · obtain ⟨hy, hd⟩ := hk
            subst hy; subst hd
            rw [hyd] at hfind
            injection hfind with hr
            subst hr
            simp only [Option.map_some]
            cases f <;> simp [hp, incStatRow]
          · have hq : statKeyMatch x today r1 = false :=
              statKeyMatch_false_of_ne y d x today r1 hp hk
            rw [if_neg (show ¬(y = x ∧ d = today ∧ f = StatField.conversions) from
              fun hh => hk ⟨hh.1, hh.2.1⟩)]
            simp [hq]

theorem dailyImpL_updDailyList (today : Int) (x : String) (f : StatField) (rev : Option Int)
    (l : List DailyStatRow) (y : String) (d : Int) :
    dailyImpL (updDailyList today x f rev l) y d
      = dailyImpL l y d + (if y = x ∧ d = today ∧ f = StatField.impressions then 1 else 0) := by
  cases hfind : dailyFindL l x today with
  | none =>
      simp only [updDailyList, hfind, dailyImpL_cons]
      by_cases hk : y = x ∧ d = today
      · obtain ⟨hy, hd⟩ := hk
        subst hy; subst hd
        have hpred : statKeyMatch y d
            ({ experimentId := y, date := d,
               impressions := if f = StatField.impressions then 1 else 0,
               conversions := if f = StatField.conversions then 1 else 0,
               revenue := rev.getD 0 } : DailyStatRow) = true := by
          simp [statKeyMatch]
        have h0 : dailyImpL l y d = 0 := by
          unfold dailyImpL
          rw [hfind]
        rw [hpred, h0]
        cases f <;> simp
      · have hpred : statKeyMatch y d
            ({ experimentId := x, date := today,
               impressions := if f = StatField.impressions then 1 else 0,
               conversions := if f = StatField.conversions then 1 else 0,
               revenue := rev.getD 0 } : DailyStatRow) = false := by
          rcases not_and_or.mp hk with h | h
          · simp only [statKeyMatch, Bool.and_eq_false_iff]
            left
            simp only [beq_eq_false_iff_ne, ne_eq]
            exact fun hh => h hh.symm
          · simp only [statKeyMatch, Bool.and_eq_false_iff]
            right
            simp only [beq_eq_false_iff_ne, ne_eq]
            exact fun hh => h hh.symm
        rw [hpred,
          if_neg (show ¬(y = x ∧ d = today ∧ f = StatField.impressions) from
            fun hh => hk ⟨hh.1, hh.2.1⟩)]
        simp
  | some r0 =>
      simp only [updDailyList, hfind]
      unfold dailyImpL
      rw [dailyFindL_mapBump]
      cases hyd : dailyFindL l y d with
      | none =>
          rw [if_neg (show ¬(y = x ∧ d = today ∧ f = StatField.impressions) from by
              intro hh
              obtain ⟨hy, hd, _⟩ := hh
              subst hy; subst hd
              rw [hyd] at hfind
              exact absurd hfind (by simp))]
          rfl
      | some r1 =>
          have hp : statKeyMatch y d r1 = true := by
            unfold dailyFindL at hyd
            exact List.find?_some hyd
          by_cases hk : y = x ∧ d = today
          · obtain ⟨hy, hd⟩ := hk
            subst hy; subst hd
            rw [hyd] at hfind
            injection hfind with hr
            subst hr
            simp only [Option.map_some]
            cases f <;> simp [hp, incStatRow]
          · have hq : statKeyMatch x today r1 = false :=
              statKeyMatch_false_of_ne y d x today r1 hp hk
            rw [if_neg (show ¬(y = x ∧ d = today ∧ f = StatField.impressions) from
              fun hh => hk ⟨hh.1, hh.2.1⟩)]
            simp [hq]

@[simp] theorem upsertVisitorDb_events (ctx : Ctx) (e : IncomingEvent) (db : DB) :
    (upsertVisitorDb ctx e db).events = db.events := by
  unfold upsertVisitorDb
  cases findVisitor db (e.projectId.getD "") (e.visitorId.getD "") <;> rfl

@[simp] theorem upsertVisitorDb_assignments (ctx : Ctx) (e : IncomingEvent) (db : DB) :
    (upsertVisitorDb ctx e db).assignments = db.assignments := by
  unfold upsertVisitorDb
  cases findVisitor db (e.projectId.getD "") (e.visitorId.getD "") <;> rfl

@[simp] theorem upsertVisitorDb_goalConversions (ctx : Ctx) (e : IncomingEvent) (db : DB) :
    (upsertVisitorDb ctx e db).goalConversions = db.goalConversions := by
  unfold upsertVisitorDb
  cases findVisitor db (e.projectId.getD "") (e.visitorId.getD "") <;> rfl

@[simp] theorem upsertVisitorDb_dailyStats (ctx : Ctx) (e : IncomingEvent) (db : DB) :
    (upsertVisitorDb ctx e db).dailyStats = db.dailyStats := by
  unfold upsertVisitorDb
  cases findVisitor db (e.projectId.getD "") (e.visitorId.getD "") <;> rfl

@[simp] theorem upsertVisitorDb_liveLogs (ctx : Ctx) (e : IncomingEvent) (db : DB) :
    (upsertVisitorDb ctx e db).liveLogs = db.liveLogs := by
  unfold upsertVisitorDb
  cases findVisitor db (e.projectId.getD "") (e.visitorId.getD "") <;> rfl

@[simp] theorem upsertVisitorDb_variants (ctx : Ctx) (e : IncomingEvent) (db : DB) :
    (upsertVisitorDb ctx e db).variants = db.variants := by
  unfold upsertVisitorDb
  cases findVisitor db (e.projectId.getD "") (e.visitorId.getD "") <;> rfl

@[simp] theorem upsertVisitorDb_experiments (ctx : Ctx) (e : IncomingEvent) (db : DB) :
    (upsertVisitorDb ctx e db).experiments = db.experiments := by
  unfold upsertVisitorDb
  cases findVisitor db (e.projectId.getD "") (e.visitorId.getD "") <;> rfl

@[simp] theorem upsertVisitorDb_experimentGoals (ctx : Ctx) (e : IncomingEvent) (db : DB) :
    (upsertVisitorDb ctx e db).experimentGoals = db.experimentGoals := by
  unfold upsertVisitorDb
  cases findVisitor db (e.projectId.getD "") (e.visitorId.getD "") <;> rfl


theorem goalConvLoop_noFail_eq (ctx : Ctx) (vid : String) (e : IncomingEvent) :
    ∀ (l : List Attribution) (s : St),
    goalConvLoop neverFail ctx vid e s l
      = ({ db := l.foldl (convStep ctx vid e) s.db, k := s.k + 6 * l.length }, true) := by
  intro l
  induction l with
  | nil => intro s; rfl
  | cons a rest ih =>
      intro s
      simp only [goalConvLoop, wr_noFail, updateDailyStat_noFail, if_true]
      rw [ih]
      simp only [List.foldl_cons, List.length_cons, Prod.mk.injEq, St.mk.injEq, true_and, and_true]
      exact ⟨rfl, by omega⟩

theorem convFold_goalConversions_length (ctx : Ctx) (vid : String) (e : IncomingEvent) :
    ∀ (l : List Attribution) (db : DB),
    (l.foldl (convStep ctx vid e) db).goalConversions.length
      = db.goalConversions.length + l.length := by
  intro l
  induction l with
  | nil => intro db; rfl
  | cons a rest ih =>
      intro db
      rw [List.foldl_cons, ih]
      simp only [convStep, appendLiveLog, updateDailyStatDb, incExpGoal, incExpConversions,
        incVariantConversions, appendGoalConversion, List.length_cons]
      omega

theorem convFold_liveLogs_length (ctx : Ctx) (vid : String) (e : IncomingEvent) :
    ∀ (l : List Attribution) (db : DB),
    (l.foldl (convStep ctx vid e) db).liveLogs.length = db.liveLogs.length + l.length := by
  intro l
  induction l with
  | nil => intro db; rfl
  | cons a rest ih =>
      intro db
      rw [List.foldl_cons, ih]
      simp only [convStep, appendLiveLog, updateDailyStatDb, incExpGoal, incExpConversions,
        incVariantConversions, appendGoalConversion, List.length_cons]
      omega

theorem convFold_visitors (ctx : Ctx) (vid : String) (e : IncomingEvent) :
    ∀ (l : List Attribution) (db : DB),
    (l.foldl (convStep ctx vid e) db).visitors = db.visitors := by
  intro l
  induction l with
  | nil => intro db; rfl
  | cons a rest ih =>
      intro db
      rw [List.foldl_cons, ih]
      rfl

theorem convFold_events (ctx : Ctx) (vid : String) (e : IncomingEvent) :
    ∀ (l : List Attribution) (db : DB),
    (l.foldl (convStep ctx vid e) db).events = db.events := by
  intro l
  induction l with
  | nil => intro db; rfl
  | cons a rest ih =>
      intro db
      rw [List.foldl_cons, ih]
      rfl

theorem convFold_assignments (ctx : Ctx) (vid : String) (e : IncomingEvent) :
    ∀ (l : List Attribution) (db : DB),
    (l.foldl (convStep ctx vid e) db).assignments = db.assignments := by
  intro l
  induction l with
  | nil => intro db; rfl
  | cons a rest ih =>
      intro db
      rw [List.foldl_cons, ih]
      rfl

theorem convFold_variants_conversions (ctx : Ctx) (vid : String) (e : IncomingEvent) :
    ∀ (l : List Attribution) (db : DB) (w' : String),
    ((l.foldl (convStep ctx vid e) db).variants w').conversions
      = (db.variants w').conversions + (l.filter fun a => a.variantId == w').length := by
  intro l
  induction l with
  | nil => intro db w'; rfl
  | cons a rest ih =>
      intro db w'
      rw [List.foldl_cons, ih]
      by_cases h : a.variantId = w'
      · simp only [convStep, appendLiveLog, updateDailyStatDb, incExpGoal, incExpConversions,
          incVariantConversions, appendGoalConversion, List.filter_cons]
        simp [h]
        omega
      · simp only [convStep, appendLiveLog, updateDailyStatDb, incExpGoal, incExpConversions,
          incVariantConversions, appendGoalConversion, List.filter_cons]
        have hne : ¬w' = a.variantId := fun hh => h hh.symm
        simp [h, hne]

theorem convFold_variants_visitors (ctx : Ctx) (vid : String) (e : IncomingEvent) :
    ∀ (l : List Attribution) (db : DB) (w' : String),
    ((l.foldl (convStep ctx vid e) db).variants w').visitors = (db.variants w').visitors := by
  intro l
  induction l with
  | nil => intro db w'; rfl
  | cons a rest ih =>
      intro db w'
      rw [List.foldl_cons, ih]
      simp only [convStep, appendLiveLog, updateDailyStatDb, incExpGoal, incExpConversions,
        incVariantConversions, appendGoalConversion]
      by_cases h : w' = a.variantId <;> simp [h]

theorem convFold_experiments_totalConversions (ctx : Ctx) (vid : String) (e : IncomingEvent) :
    ∀ (l : List Attribution) (db : DB) (x' : String),
    ((l.foldl (convStep ctx vid e) db).experiments x').totalConversions
      = (db.experiments x').totalConversions + (l.filter fun a => a.experimentId == x').length := by
  intro l
  induction l with
  | nil => intro db x'; rfl
  | cons a rest ih =>
      intro db x'
      rw [List.foldl_cons, ih]
      by_cases h : a.experimentId = x'
      · simp only [convStep, appendLiveLog, updateDailyStatDb, incExpGoal, incExpConversions,
          incVariantConversions, appendGoalConversion, List.filter_cons]
        simp [h]
        omega
      · simp only [convStep, appendLiveLog, updateDailyStatDb, incExpGoal, incExpConversions,
          incVariantConversions, appendGoalConversion, List.filter_cons]
        have hne : ¬x' = a.experimentId := fun hh => h hh.symm
        simp [h, hne]

theorem convFold_experiments_totalVisitors (ctx : Ctx) (vid : String) (e : IncomingEvent) :
    ∀ (l : List Attribution) (db : DB) (x' : String),
    ((l.foldl (convStep ctx vid e) db).experiments x').totalVisitors
      = (db.experiments x').totalVisitors := by
  intro l
  induction l with
  | nil => intro db x'; rfl
  | cons a rest ih =>
      intro db x'
      rw [List.foldl_cons, ih]
      simp only [convStep, appendLiveLog, updateDailyStatDb, incExpGoal, incExpConversions,
        incVariantConversions, appendGoalConversion]
      by_cases h : x' = a.experimentId <;> simp [h]

theorem convFold_experimentGoals (ctx : Ctx) (vid : String) (e : IncomingEvent) :
    ∀ (l : List Attribution) (db : DB) (x' g' : String),
    (l.foldl (convStep ctx vid e) db).experimentGoals x' g'
      = db.experimentGoals x' g'
        + (if g' = e.goalId.getD ""
           then (l.filter fun a => a.experimentId == x').length else 0) := by
  intro l
  induction l with
  | nil => intro db x' g'; simp
  | cons a rest ih =>
      intro db x' g'
      rw [List.foldl_cons, ih]
      simp only [convStep, appendLiveLog, updateDailyStatDb, incExpGoal, incExpConversions,
        incVariantConversions, appendGoalConversion, List.filter_cons]
      by_cases hg : g' = e.goalId.getD ""
      · by_cases hx : a.experimentId = x'
        · simp [hg, hx]
          omega
        · have hne : ¬x' = a.experimentId := fun hh => hx hh.symm
          simp [hg, hne, hx]
      · have hne : ¬(x' = a.experimentId ∧ g' = e.goalId.getD "") := fun hh => hg hh.2
        simp [hg, hne]

theorem convFold_dailyStats (ctx : Ctx) (vid : String) (e : IncomingEvent) :
    ∀ (l : List Attribution) (db : DB),
    (l.foldl (convStep ctx vid e) db).dailyStats
      = l.foldl
          (fun ds a => updDailyList (dayKeyLocal ctx.now ctx.tz) a.experimentId
            StatField.conversions e.value ds)
          db.dailyStats := by
  intro l
  induction l with
  | nil => intro db; rfl
  | cons a rest ih =>
      intro db
      rw [List.foldl_cons, ih, List.foldl_cons]
      rfl

theorem convStep_dailyConv (ctx : Ctx) (vid : String) (e : IncomingEvent) (db : DB)
    (a : Attribution) (x' : String) (d : Int) :
    dailyConv (convStep ctx vid e db a) x' d
      = dailyConv db x' d
        + (if x' = a.experimentId ∧ d = dayKeyLocal ctx.now ctx.tz then 1 else 0) := by
  have h2 : (convStep ctx vid e db a).dailyStats
      = updDailyList (dayKeyLocal ctx.now ctx.tz) a.experimentId StatField.conversions
          e.value db.dailyStats := rfl
  unfold dailyConv
  rw [h2, dailyConvL_updDailyList]
  simp

theorem convStep_dailyImp (ctx : Ctx) (vid : String) (e : IncomingEvent) (db : DB)
    (a : Attribution) (x' : String) (d : Int) :
    dailyImp (convStep ctx vid e db a) x' d = dailyImp db x' d := by
  have h2 : (convStep ctx vid e db a).dailyStats
      = updDailyList (dayKeyLocal ctx.now ctx.tz) a.experimentId StatField.conversions
          e.value db.dailyStats := rfl
  unfold dailyImp
  rw [h2, dailyImpL_updDailyList]
  simp

theorem convFold_dailyConv (ctx : Ctx) (vid : String) (e : IncomingEvent) :
    ∀ (l : List Attribution) (db : DB) (x' : String) (d : Int),
    dailyConv (l.foldl (convStep ctx vid e) db) x' d
      = dailyConv db x' d
        + (if d = dayKeyLocal ctx.now ctx.tz
           then (l.filter fun a => a.experimentId == x').length else 0) := by
  intro l
  induction l with
  | nil => intro db x' d; simp
  | cons a rest ih =>
      intro db x' d
      rw [List.foldl_cons, ih, convStep_dailyConv]
      by_cases hd : d = dayKeyLocal ctx.now ctx.tz
      · by_cases hx : a.experimentId = x'
        · simp [hd, hx, List.filter_cons, List.length_cons]
          omega
        · have hne : ¬(x' = a.experimentId ∧ d = dayKeyLocal ctx.now ctx.tz) :=
            fun hh => hx hh.1.symm
          simp [hd, hx, hne, List.filter_cons]
          exact fun hh => hx hh.symm
      · have hne : ¬(x' = a.experimentId ∧ d = dayKeyLocal ctx.now ctx.tz) :=
          fun hh => hd hh.2
        simp [hd, hne]

theorem convFold_dailyImp (ctx : Ctx) (vid : String) (e : IncomingEvent) :
    ∀ (l : List Attribution) (db : DB) (x' : String) (d : Int),
    dailyImp (l.foldl (convStep ctx vid e) db) x' d = dailyImp db x' d := by
  intro l
  induction l with
  | nil => intro db x' d; rfl
  | cons a rest ih =>
      intro db x' d
      rw [List.foldl_cons, ih, convStep_dailyImp]

theorem handleSessionStart_noFail (s : St) (vid : String) (e : IncomingEvent) :
    handleSessionStart neverFail s vid e
      = ({ db := appendEvent (sessionEventRow vid e) (incVisitCount vid s.db), k := s.k + 2 },
         true) := rfl

theorem handleCustomEvent_noFail (s : St) (vid : String) (e : IncomingEvent) :
    handleCustomEvent neverFail s vid e
      = ({ db := appendEvent (customEventRow vid e) s.db, k := s.k + 1 }, true) := rfl

theorem handleGenericEvent_noFail (s : St) (vid : String) (e : IncomingEvent) :
    handleGenericEvent neverFail s vid e
      = ({ db := appendEvent (genericEventRow vid e) s.db, k := s.k + 1 }, true) := rfl

theorem handleExperimentView_noFail_first (ctx : Ctx) (s : St) (vid : String)
    (e : IncomingEvent) (x w : String)
    (hx : e.experimentId = some x) (hxn : x ≠ "")
    (hw : e.variantId = some w) (hwn : w ≠ "")
    (hfirst : findAssignment s.db vid x = none) :
    handleExperimentView neverFail ctx s vid e
      = ({ db := appendLiveLog (viewLogRow ctx x w e)
              (appendEvent (viewEventRow vid x w e)
                (updateDailyStatDb ctx x StatField.impressions none
                  (incExpVisitors x
                    (incVariantVisitors w
                      (appendAssignment { visitorId := vid, experimentId := x, variantId := w }
                        s.db))))),
           k := s.k + 6 }, true) := by
  unfold handleExperimentView
  rw [hx, hw]
  have h1 : blankS (some x) = false := by simp [blankS, hxn]
  have h2 : blankS (some w) = false := by simp [blankS, hwn]
  rw [h1, h2]
  simp only [Bool.or_self, Bool.false_eq_true, if_false, Option.getD_some]
  rw [hfirst]
  simp only [wr_noFail, updateDailyStat_noFail, if_true]

theorem handleExperimentView_noFail_repeat (ctx : Ctx) (s : St) (vid : String)
    (e : IncomingEvent) (x w : String) (a : AssignmentRow)
    (hx : e.experimentId = some x) (hxn : x ≠ "")
    (hw : e.variantId = some w) (hwn : w ≠ "")
    (hrep : findAssignment s.db vid x = some a) :
    handleExperimentView neverFail ctx s vid e
      = ({ db := appendLiveLog (viewLogRow ctx x w e)
              (appendEvent (viewEventRow vid x w e) s.db),
           k := s.k + 2 }, true) := by
  unfold handleExperimentView
  rw [hx, hw]
  have h1 : blankS (some x) = false := by simp [blankS, hxn]
  have h2 : blankS (some w) = false := by simp [blankS, hwn]
  rw [h1, h2]
  simp only [Bool.or_self, Bool.false_eq_true, if_false, Option.getD_some]
  rw [hrep]
  simp only [wr_noFail, if_true]

theorem processEvent_noFail_route (ctx : Ctx) (db : DB) (e : IncomingEvent)
    (hreq : (blankS e.projectId || blankS e.visitorId || blankS e.eventType) = false) :
    processEvent neverFail ctx { db := db, k := 0 } e
      = (if e.eventType.getD "" = "SESSION_START"
         then handleSessionStart neverFail
            { db := upsertVisitorDb ctx e db, k := 1 }
            (visDbId db (e.projectId.getD "") (e.visitorId.getD "")) e
         else if e.eventType.getD "" = "EXPERIMENT_VIEW"
         then handleExperimentView neverFail ctx
            { db := upsertVisitorDb ctx e db, k := 1 }
            (visDbId db (e.projectId.getD "") (e.visitorId.getD "")) e
         else if e.eventType.getD "" = "GOAL_CONVERSION"
         then handleGoalConversion neverFail ctx
            { db := upsertVisitorDb ctx e db, k := 1 }
            (visDbId db (e.projectId.getD "") (e.visitorId.getD "")) e
         else if e.eventType.getD "" = "CUSTOM_EVENT"
         then handleCustomEvent neverFail
            { db := upsertVisitorDb ctx e db, k := 1 }
            (visDbId db (e.projectId.getD "") (e.visitorId.getD "")) e
         else handleGenericEvent neverFail
            { db := upsertVisitorDb ctx e db, k := 1 }
            (visDbId db (e.projectId.getD "") (e.visitorId.getD "")) e) := by
  unfold processEvent
  rw [hreq]
  simp only [Bool.false_eq_true, if_false, upsertVisitor_noFail]

theorem findAssignment_upsertVisitorDb (ctx : Ctx) (e : IncomingEvent) (db : DB)
    (vid x : String) :
    findAssignment (upsertVisitorDb ctx e db) vid x = findAssignment db vid x := by
  unfold findAssignment
  rw [upsertVisitorDb_assignments]





/-- C8 counterexample: a user-agent string containing both the "Chrome" and
"Edg" tokens on which classification returns "firefox", not "edge" — the
Firefox rule sits between the Chrome-exclusion rule and the Edg rule, so the
claim's universally quantified statement is false. -/
theorem c8_counterexample :
    strIncludes exUA "Chrome" = true ∧ strIncludes exUA "Edg" = true
      ∧ detectBrowser exUA = "firefox" ∧ detectBrowser exUA ≠ "edge" := by
  refine ⟨by decide, by decide, by decide, by decide⟩

/-- C8 (amended): for every user-agent string containing both "Chrome" and
"Edg", classification never returns "chrome", and returns "edge" provided the
string does not also contain "Firefox". -/
theorem c8_edge_unless_firefox (ua : String)
    (hc : strIncludes ua "Chrome" = true) (he : strIncludes ua "Edg" = true) :
    detectBrowser ua ≠ "chrome"
      ∧ (strIncludes ua "Firefox" = false → detectBrowser ua = "edge") := by
  unfold detectBrowser
  rw [hc, he]
  simp only [Bool.not_true, Bool.and_false, Bool.false_eq_true, if_false]
  constructor
  · cases hf : strIncludes ua "Firefox"
    · simp only [hf, Bool.false_eq_true, if_false, Bool.and_false, if_true]
      decide
    · simp only [hf, if_true]
      decide
  · intro hf
    simp only [hf, Bool.false_eq_true, if_false, Bool.and_false, if_true]

/-- C8 witness: the theorem applied to the concrete user agent "Chrome Edg". -/
theorem c8_witness :
    detectBrowser "Chrome Edg" = "edge" ∧ detectBrowser "Chrome Edg" ≠ "chrome" :=
  ⟨(c8_edge_unless_firefox "Chrome Edg" (by decide) (by decide)).2 (by decide),
   (c8_edge_unless_firefox "Chrome Edg" (by decide) (by decide)).1⟩

/-- C3 counterexample: a GOAL_CONVERSION event with an empty attribution list
still causes a store write — the Visitor row is created by the upsert that
`processEvent` performs before routing, contradicting "zero rows of any
kind ... no Visitor row created or updated". -/
theorem c3_counterexample :
    (run1 exCtx {} exEmptyConv).visitors ≠ ({} : DB).visitors := by
  decide

/-- C3 (amended): a GOAL_CONVERSION event whose goalId is blank or whose
attribution list is missing or empty writes nothing from the conversion
handler itself — the store after processing is exactly the store after the
pre-routing visitor upsert, and every non-visitor table is untouched. -/
theorem c3_empty_conversion_writes_only_visitor (ctx : Ctx) (db : DB) (e : IncomingEvent)
    (p v : String)
    (hp : e.projectId = some p) (hpn : p ≠ "")
    (hv : e.visitorId = some v) (hvn : v ≠ "")
    (ht : e.eventType = some "GOAL_CONVERSION")
    (hempty : (blankS e.goalId || e.attributedExperiments.isNone
        || (e.attributedExperiments.getD []).isEmpty) = true) :
    run1 ctx db e = upsertVisitorDb ctx e db
      ∧ (run1 ctx db e).goalConversions = db.goalConversions
      ∧ (run1 ctx db e).events = db.events
      ∧ (run1 ctx db e).liveLogs = db.liveLogs
      ∧ (run1 ctx db e).dailyStats = db.dailyStats
      ∧ (run1 ctx db e).assignments = db.assignments
      ∧ (run1 ctx db e).variants = db.variants
      ∧ (run1 ctx db e).experiments = db.experiments
      ∧ (run1 ctx db e).experimentGoals = db.experimentGoals := by
  have hmain : run1 ctx db e = upsertVisitorDb ctx e db := by
    unfold run1
    rw [processEvent_noFail_route ctx db e (by rw [hp, hv, ht]; simp [blankS, hpn, hvn])]
    rw [ht]
    simp only [Option.getD_some]
    rw [if_neg (by decide), if_neg (by decide), if_pos trivial]
    unfold handleGoalConversion
    rw [hempty]
    rfl
  refine ⟨hmain, ?_, ?_, ?_, ?_, ?_, ?_, ?_, ?_⟩ <;> rw [hmain] <;> simp

/-- C3 witness: the amended theorem applied to a concrete empty-attribution
conversion event against the empty store. -/
theorem c3_witness :
    run1 exCtx {} exEmptyConv = upsertVisitorDb exCtx exEmptyConv {}
      ∧ (run1 exCtx {} exEmptyConv).goalConversions = ({} : DB).goalConversions
      ∧ (run1 exCtx {} exEmptyConv).events = ({} : DB).events
      ∧ (run1 exCtx {} exEmptyConv).liveLogs = ({} : DB).liveLogs :=
  (fun h => ⟨h.1, h.2.1, h.2.2.1, h.2.2.2.1⟩)
    (c3_empty_conversion_writes_only_visitor exCtx {} exEmptyConv "p" "v"
      rfl (by decide) rfl (by decide) rfl (by decide))

/-- C10 (confirmed): an EXPERIMENT_VIEW event missing experimentId or
variantId performs no write beyond the pre-routing visitor upsert. -/
theorem c10_view_missing_ids_only_visitor_write (ctx : Ctx) (db : DB) (e : IncomingEvent)
    (p v : String)
    (hp : e.projectId = some p) (hpn : p ≠ "")
    (hv : e.visitorId = some v) (hvn : v ≠ "")
    (ht : e.eventType = some "EXPERIMENT_VIEW")
    (hmiss : (blankS e.experimentId || blankS e.variantId) = true) :
    run1 ctx db e = upsertVisitorDb ctx e db
      ∧ (run1 ctx db e).assignments = db.assignments
      ∧ (run1 ctx db e).events = db.events
      ∧ (run1 ctx db e).liveLogs = db.liveLogs
      ∧ (run1 ctx db e).dailyStats = db.dailyStats
      ∧ (run1 ctx db e).variants = db.variants
      ∧ (run1 ctx db e).experiments = db.experiments
      ∧ (run1 ctx db e).goalConversions = db.goalConversions := by
  have hmain : run1 ctx db e = upsertVisitorDb ctx e db := by
    unfold run1
    rw [processEvent_noFail_route ctx db e (by rw [hp, hv, ht]; simp [blankS, hpn, hvn])]
    rw [ht]
    simp only [Option.getD_some]
    rw [if_neg (by decide), if_pos trivial]
    unfold handleExperimentView
    rw [hmiss]
    rfl
  refine ⟨hmain, ?_, ?_, ?_, ?_, ?_, ?_, ?_⟩ <;> rw [hmain] <;> simp


/-- C10 witness: the theorem applied to a concrete EXPERIMENT_VIEW event that
carries an experimentId but no variantId. -/
theorem c10_witness :
    run1 exCtx {} exViewNoVariant = upsertVisitorDb exCtx exViewNoVariant {}
      ∧ (run1 exCtx {} exViewNoVariant).assignments = ({} : DB).assignments
      ∧ (run1 exCtx {} exViewNoVariant).events = ({} : DB).events
      ∧ (run1 exCtx {} exViewNoVariant).liveLogs = ({} : DB).liveLogs :=
  (fun h => ⟨h.1, h.2.1, h.2.2.1, h.2.2.2.1⟩)
    (c10_view_missing_ids_only_visitor_write exCtx {} exViewNoVariant "p" "v"
      rfl (by decide) rfl (by decide) rfl (by decide))

/-- C9 (confirmed): a SESSION_START event is recorded as an Event row of type
"PAGE_VIEW" carrying an isSessionStart marker in its payload — never as an
Event row of type "SESSION_START". -/
theorem c9_session_start_logged_as_page_view (ctx : Ctx) (db : DB) (e : IncomingEvent)
    (p v : String)
    (hp : e.projectId = some p) (hpn : p ≠ "")
    (hv : e.visitorId = some v) (hvn : v ≠ "")
    (ht : e.eventType = some "SESSION_START") :
    (run1 ctx db e).events = sessionEventRow (visDbId db p v) e :: db.events
      ∧ (sessionEventRow (visDbId db p v) e).eventType = "PAGE_VIEW"
      ∧ (sessionEventRow (visDbId db p v) e).eventType ≠ "SESSION_START"
      ∧ (sessionEventRow (visDbId db p v) e).eventData
          = EventData.session
              { sessionId := e.sessionId, referrer := e.referrer, isSessionStart := true } := by
  refine ⟨?_, rfl, show ("PAGE_VIEW" : String) ≠ "SESSION_START" by decide, rfl⟩
  unfold run1
  rw [processEvent_noFail_route ctx db e (by rw [hp, hv, ht]; simp [blankS, hpn, hvn])]
  rw [ht]
  simp only [Option.getD_some]
  rw [if_pos trivial]
  rw [handleSessionStart_noFail]
  rw [hp, hv]
  simp only [Option.getD_some, appendEvent, incVisitCount]
  simp


/-- C9 witness: the theorem applied to a concrete SESSION_START event. -/
theorem c9_witness :
    (run1 exCtx {} exSession).events
        = sessionEventRow (visDbId {} "p" "v") exSession :: ({} : DB).events
      ∧ (sessionEventRow (visDbId {} "p" "v") exSession).eventType = "PAGE_VIEW"
      ∧ (sessionEventRow (visDbId {} "p" "v") exSession).eventType ≠ "SESSION_START" :=
  (fun h => ⟨h.1, h.2.1, h.2.2.1⟩)
    (c9_session_start_logged_as_page_view exCtx {} exSession "p" "v"
      rfl (by decide) rfl (by decide) rfl)

/-- C2 (confirmed): the first EXPERIMENT_VIEW for a (visitor, experiment)
pair creates exactly one VariantAssignment and increments the variant's
visitor counter, the experiment's total-visitors counter and the day's
impression counter by exactly 1 each (and appends one Event and one LiveLog
row); a repeat view for the same pair adds no assignment and no counter
increment but still appends exactly one Event row and one LiveLog row. -/
theorem c2_first_view_assigns_and_counts_once (ctx : Ctx) (db : DB) (e : IncomingEvent)
    (p v x w : String)
    (hp : e.projectId = some p) (hpn : p ≠ "")
    (hv : e.visitorId = some v) (hvn : v ≠ "")
    (ht : e.eventType = some "EXPERIMENT_VIEW")
    (hx : e.experimentId = some x) (hxn : x ≠ "")
    (hw : e.variantId = some w) (hwn : w ≠ "") :
    (findAssignment db (visDbId db p v) x = none →
        (run1 ctx db e).assignments
            = { visitorId := visDbId db p v, experimentId := x, variantId := w }
                :: db.assignments
          ∧ ((run1 ctx db e).variants w).visitors = (db.variants w).visitors + 1
          ∧ ((run1 ctx db e).experiments x).totalVisitors
              = (db.experiments x).totalVisitors + 1
          ∧ dailyImp (run1 ctx db e) x (dayKeyLocal ctx.now ctx.tz)
              = dailyImp db x (dayKeyLocal ctx.now ctx.tz) + 1
          ∧ (run1 ctx db e).events.length = db.events.length + 1
          ∧ (run1 ctx db e).liveLogs.length = db.liveLogs.length + 1)
      ∧ (∀ a : AssignmentRow, findAssignment db (visDbId db p v) x = some a →
          (run1 ctx db e).assignments = db.assignments
            ∧ (run1 ctx db e).variants = db.variants
            ∧ (run1 ctx db e).experiments = db.experiments
            ∧ (run1 ctx db e).dailyStats = db.dailyStats
            ∧ (run1 ctx db e).goalConversions = db.goalConversions
            ∧ (run1 ctx db e).events.length = db.events.length + 1
            ∧ (run1 ctx db e).liveLogs.length = db.liveLogs.length + 1) := by
  have hroute : run1 ctx db e
      = (handleExperimentView neverFail ctx { db := upsertVisitorDb ctx e db, k := 1 }
          (visDbId db p v) e).1.db := by
    unfold run1
    rw [processEvent_noFail_route ctx db e (by rw [hp, hv, ht]; simp [blankS, hpn, hvn])]
    rw [ht]
    simp only [Option.getD_some]
    rw [if_neg (by decide), if_pos trivial]
    rw [hp, hv]
    simp only [Option.getD_some]
  constructor
  · intro hfirst
    have hfirst' : findAssignment (upsertVisitorDb ctx e db) (visDbId db p v) x = none := by
      rw [findAssignment_upsertVisitorDb]
      exact hfirst
    rw [hroute,
      handleExperimentView_noFail_first ctx { db := upsertVisitorDb ctx e db, k := 1 }
        (visDbId db p v) e x w hx hxn hw hwn hfirst']
    refine ⟨?_, ?_, ?_, ?_, ?_, ?_⟩
    · simp [appendLiveLog, appendEvent, updateDailyStatDb, incExpVisitors,
        incVariantVisitors, appendAssignment]
    · simp [appendLiveLog, appendEvent, updateDailyStatDb, incExpVisitors,
        incVariantVisitors, appendAssignment]
    · simp [appendLiveLog, appendEvent, updateDailyStatDb, incExpVisitors,
        incVariantVisitors, appendAssignment]
    · have hds : (appendLiveLog (viewLogRow ctx x w e)
          (appendEvent (viewEventRow (visDbId db p v) x w e)
            (updateDailyStatDb ctx x StatField.impressions none
              (incExpVisitors x
                (incVariantVisitors w
                  (appendAssignment
                    { visitorId := visDbId db p v, experimentId := x, variantId := w }
                    (upsertVisitorDb ctx e db))))))).dailyStats
          = updDailyList (dayKeyLocal ctx.now ctx.tz) x StatField.impressions none
              (upsertVisitorDb ctx e db).dailyStats := rfl
      unfold dailyImp
      rw [hds, upsertVisitorDb_dailyStats, dailyImpL_updDailyList]
      simp
    · simp [appendLiveLog, appendEvent, updateDailyStatDb, incExpVisitors,
        incVariantVisitors, appendAssignment]
    · simp [appendLiveLog, appendEvent, updateDailyStatDb, incExpVisitors,
        incVariantVisitors, appendAssignment]
  · intro a hrep
    have hrep' : findAssignment (upsertVisitorDb ctx e db) (visDbId db p v) x = some a := by
      rw [findAssignment_upsertVisitorDb]
      exact hrep
    rw [hroute,
      handleExperimentView_noFail_repeat ctx { db := upsertVisitorDb ctx e db, k := 1 }
        (visDbId db p v) e x w a hx hxn hw hwn hrep']
    refine ⟨?_, ?_, ?_, ?_, ?_, ?_, ?_⟩ <;>
      simp [appendLiveLog, appendEvent]


/-- C2 witness: the theorem applied to a concrete first view on the empty
store and to a concrete repeat view on a store already holding the
assignment. -/
theorem c2_witness :
    ((run1 exCtx {} exView).assignments
        = { visitorId := visDbId ({} : DB) "p" "v", experimentId := "e1", variantId := "w1" }
            :: ({} : DB).assignments
      ∧ ((run1 exCtx {} exView).variants "w1").visitors
          = (({} : DB).variants "w1").visitors + 1)
    ∧ ((run1 exCtx exDbRep exView).assignments = exDbRep.assignments
      ∧ (run1 exCtx exDbRep exView).events.length = exDbRep.events.length + 1) :=
  ⟨(fun h => ⟨h.1, h.2.1⟩)
      ((c2_first_view_assigns_and_counts_once exCtx {} exView "p" "v" "e1" "w1"
        rfl (by decide) rfl (by decide) rfl rfl (by decide) rfl (by decide)).1 (by decide)),
   (fun h => ⟨h.1, h.2.2.2.2.2.1⟩)
      ((c2_first_view_assigns_and_counts_once exCtx exDbRep exView "p" "v" "e1" "w1"
        rfl (by decide) rfl (by decide) rfl rfl (by decide) rfl (by decide)).2
        { visitorId := "p:v", experimentId := "e1", variantId := "w1" } (by decide))⟩

/-- C4 (confirmed): a GOAL_CONVERSION with goalId and k ≥ 1 attributions
(duplicates allowed) writes exactly k GoalConversion rows and k LiveLog rows,
and per attribution increments the attributed variant's conversions, the
attributed experiment's total conversions, the matching experiment-goal
pairing and the day's conversion counter — with no deduplication across
attributions sharing an experimentId. -/
theorem c4_conversion_fanout (ctx : Ctx) (db : DB) (e : IncomingEvent)
    (p v g : String) (l : List Attribution)
    (hp : e.projectId = some p) (hpn : p ≠ "")
    (hv : e.visitorId = some v) (hvn : v ≠ "")
    (ht : e.eventType = some "GOAL_CONVERSION")
    (hg : e.goalId = some g) (hgn : g ≠ "")
    (hatt : e.attributedExperiments = some l) (hl : l ≠ []) :
    (run1 ctx db e).goalConversions.length = db.goalConversions.length + l.length
      ∧ (run1 ctx db e).liveLogs.length = db.liveLogs.length + l.length
      ∧ (∀ w', ((run1 ctx db e).variants w').conversions
          = (db.variants w').conversions + (l.filter fun a => a.variantId == w').length)
      ∧ (∀ x', ((run1 ctx db e).experiments x').totalConversions
          = (db.experiments x').totalConversions
            + (l.filter fun a => a.experimentId == x').length)
      ∧ (∀ x', (run1 ctx db e).experimentGoals x' g
          = db.experimentGoals x' g + (l.filter fun a => a.experimentId == x').length)
      ∧ (∀ x', dailyConv (run1 ctx db e) x' (dayKeyLocal ctx.now ctx.tz)
          = dailyConv db x' (dayKeyLocal ctx.now ctx.tz)
            + (l.filter fun a => a.experimentId == x').length) := by
  have hroute : run1 ctx db e
      = (handleGoalConversion neverFail ctx { db := upsertVisitorDb ctx e db, k := 1 }
          (visDbId db p v) e).1.db := by
    unfold run1
    rw [processEvent_noFail_route ctx db e (by rw [hp, hv, ht]; simp [blankS, hpn, hvn])]
    rw [ht]
    simp only [Option.getD_some]
    rw [if_neg (by decide), if_neg (by decide), if_pos trivial]
    rw [hp, hv]
    simp only [Option.getD_some]
  have hguard : (blankS e.goalId || e.attributedExperiments.isNone
      || (e.attributedExperiments.getD []).isEmpty) = false := by
    rw [hg, hatt]
    simp [blankS, hgn, hl]
  have hloop : run1 ctx db e
      = l.foldl (convStep ctx (visDbId db p v) e) (upsertVisitorDb ctx e db) := by
    rw [hroute]
    unfold handleGoalConversion
    rw [hguard]
    simp only [Bool.false_eq_true, if_false]
    rw [goalConvLoop_noFail_eq]
    rw [hatt]
    simp only [Option.getD_some]
  refine ⟨?_, ?_, ?_, ?_, ?_, ?_⟩
  · rw [hloop, convFold_goalConversions_length, upsertVisitorDb_goalConversions]
  · rw [hloop, convFold_liveLogs_length, upsertVisitorDb_liveLogs]
  · intro w'
    rw [hloop, convFold_variants_conversions, upsertVisitorDb_variants]
  · intro x'
    rw [hloop, convFold_experiments_totalConversions, upsertVisitorDb_experiments]
  · intro x'
    rw [hloop, convFold_experimentGoals, upsertVisitorDb_experimentGoals, hg]
    simp
  · intro x'
    rw [hloop, convFold_dailyConv]
    have hup : dailyConv (upsertVisitorDb ctx e db) x' (dayKeyLocal ctx.now ctx.tz)
        = dailyConv db x' (dayKeyLocal ctx.now ctx.tz) := by
      unfold dailyConv
      rw [upsertVisitorDb_dailyStats]
    rw [hup]
    simp


/-- C4 witness: the theorem applied to a concrete conversion with two
attributions that share an experimentId. -/
theorem c4_witness :
    (run1 exCtx {} exConv2).goalConversions.length = ({} : DB).goalConversions.length + 2
      ∧ ((run1 exCtx {} exConv2).experiments "e1").totalConversions
          = (({} : DB).experiments "e1").totalConversions + 2 := by
  have h := c4_conversion_fanout exCtx {} exConv2 "p" "v" "g"
      [{ experimentId := "e1", variantId := "w1" },
       { experimentId := "e1", variantId := "w2" }]
      rfl (by decide) rfl (by decide) rfl rfl (by decide) rfl (by decide)
  refine ⟨?_, ?_⟩
  · simpa using h.1
  · simpa using h.2.2.2.1 "e1"

theorem findVisitor_map_upd (db : DB) (p v : String) (f : VisitorRow → VisitorRow)
    (hf : ∀ r, (f r).projectId = r.projectId ∧ (f r).visitorId = r.visitorId) :
    findVisitor { db with visitors := db.visitors.map f } p v
      = (findVisitor db p v).map f := by
  unfold findVisitor
  exact find?_map_invariant _ _ (fun a => by simp [(hf a).1, (hf a).2]) db.visitors

theorem findVisitor_upsert_some (ctx : Ctx) (e : IncomingEvent) (db : DB) (p v : String)
    (hp : e.projectId = some p) (hv : e.visitorId = some v) (r0 : VisitorRow)
    (hr0 : findVisitor db p v = some r0) :
    findVisitor (upsertVisitorDb ctx e db) p v
      = some { r0 with lastSeen := e.timestamp, pageViews := r0.pageViews + 1 } := by
  have hpred : (r0.projectId == p && r0.visitorId == v) = true := by
    have h2 := hr0
    unfold findVisitor at h2
    have h := List.find?_some h2
    exact h
  unfold upsertVisitorDb
  rw [hp, hv]
  simp only [Option.getD_some, hr0]
  rw [findVisitor_map_upd db p v]
  · rw [hr0]
    rw [Bool.and_eq_true, beq_iff_eq, beq_iff_eq] at hpred
    simp [hpred.1, hpred.2]
  · intro r
    by_cases h : (r.projectId == p && r.visitorId == v) = true <;> simp [h]

theorem findVisitor_incVisitCount (db : DB) (p v vid : String) :
    findVisitor (incVisitCount vid db) p v
      = (findVisitor db p v).map
          fun r => if r.id == vid then { r with visitCount := r.visitCount + 1 } else r := by
  unfold incVisitCount
  rw [findVisitor_map_upd db p v]
  intro r
  by_cases h : (r.id == vid) = true <;> simp [h]

theorem handleExperimentView_noFail_visitors (ctx : Ctx) (s : St) (vid : String)
    (e : IncomingEvent) :
    (handleExperimentView neverFail ctx s vid e).1.db.visitors = s.db.visitors := by
  unfold handleExperimentView
  cases hb : (blankS e.experimentId || blankS e.variantId) with
  | false =>
      simp only [hb, Bool.false_eq_true, if_false]
      cases hfa : findAssignment s.db vid (e.experimentId.getD "") with
      | none =>
          simp only [hfa, wr_noFail, updateDailyStat_noFail, if_true]
          rfl
      | some a =>
          simp only [hfa, wr_noFail, if_true]
          rfl
  | true =>
      simp only [hb, if_true]

theorem handleGoalConversion_noFail_visitors (ctx : Ctx) (s : St) (vid : String)
    (e : IncomingEvent) :
    (handleGoalConversion neverFail ctx s vid e).1.db.visitors = s.db.visitors := by
  unfold handleGoalConversion
  cases hb : (blankS e.goalId || e.attributedExperiments.isNone
      || (e.attributedExperiments.getD []).isEmpty) with
  | false =>
      simp only [hb, Bool.false_eq_true, if_false]
      rw [goalConvLoop_noFail_eq]
      exact convFold_visitors ctx vid e (e.attributedExperiments.getD []) s.db
  | true =>
      simp only [hb, if_true]

/-- C7 (confirmed): the first event for a (projectId, visitorId) pair creates
the Visitor row with visitCount 1, pageViews 1 and firstSeen = lastSeen = the
event timestamp (the create branch of the upsert); every subsequent event for
the pair sets lastSeen to the event timestamp and increments pageViews by 1,
and leaves visitCount unchanged unless the event is a SESSION_START, which
adds exactly 1 to visitCount. -/
theorem c7_visitor_lifecycle (ctx : Ctx) (db : DB) (e : IncomingEvent) (p v t : String)
    (hp : e.projectId = some p) (hpn : p ≠ "")
    (hv : e.visitorId = some v) (hvn : v ≠ "")
    (het : e.eventType = some t) (htn : t ≠ "") :
    (findVisitor db p v = none →
        findVisitor (upsertVisitorDb ctx e db) p v = some (mkVisitorRow ctx e)
          ∧ (mkVisitorRow ctx e).visitCount = 1
          ∧ (mkVisitorRow ctx e).pageViews = 1
          ∧ (mkVisitorRow ctx e).firstSeen = e.timestamp
          ∧ (mkVisitorRow ctx e).lastSeen = e.timestamp)
      ∧ (∀ r0 : VisitorRow, findVisitor db p v = some r0 →
          ∃ r1 : VisitorRow, findVisitor (run1 ctx db e) p v = some r1
            ∧ r1.lastSeen = e.timestamp
            ∧ r1.pageViews = r0.pageViews + 1
            ∧ r1.visitCount = r0.visitCount + (if t = "SESSION_START" then 1 else 0)) := by
  constructor
  · intro hnone
    refine ⟨?_, rfl, rfl, rfl, rfl⟩
    unfold upsertVisitorDb
    rw [hp, hv]
    simp only [Option.getD_some, hnone]
    unfold findVisitor
    have hpred : ((mkVisitorRow ctx e).projectId == p
        && (mkVisitorRow ctx e).visitorId == v) = true := by
      unfold mkVisitorRow
      rw [hp, hv]
      simp
    simp only [List.find?]
    rw [hpred]
  · intro r0 hr0
    have hupd := findVisitor_upsert_some ctx e db p v hp hv r0 hr0
    have hroute := processEvent_noFail_route ctx db e
      (by rw [hp, hv, het]; simp [blankS, hpn, hvn, htn])
    have hvid : visDbId db (e.projectId.getD "") (e.visitorId.getD "") = r0.id := by
      rw [hp, hv]
      simp only [Option.getD_some]
      unfold visDbId
      simp only [hr0]
    by_cases hss : t = "SESSION_START"
    · refine ⟨{ r0 with lastSeen := e.timestamp, pageViews := r0.pageViews + 1, visitCount := r0.visitCount + 1 }, ?_, rfl, rfl, ?_⟩
      · unfold run1
        rw [hroute, het]
        simp only [Option.getD_some]
        rw [if_pos hss, handleSessionStart_noFail, hvid]
        have hstep : findVisitor (incVisitCount r0.id (upsertVisitorDb ctx e db)) p v
            = some { r0 with lastSeen := e.timestamp, pageViews := r0.pageViews + 1, visitCount := r0.visitCount + 1 } := by
          rw [findVisitor_incVisitCount, hupd]
          simp
        exact hstep
      · rw [if_pos hss]
    · refine ⟨{ r0 with lastSeen := e.timestamp, pageViews := r0.pageViews + 1 }, ?_, rfl, rfl, ?_⟩
      · unfold run1
        rw [hroute, het]
        simp only [Option.getD_some]
        rw [if_neg hss, hvid]
        by_cases h2 : t = "EXPERIMENT_VIEW"
        · rw [if_pos h2]
          have hv2 := handleExperimentView_noFail_visitors ctx
            { db := upsertVisitorDb ctx e db, k := 1 } r0.id e
          unfold findVisitor
          rw [hv2]
          unfold findVisitor at hupd
          exact hupd
        · rw [if_neg h2]
          by_cases h3 : t = "GOAL_CONVERSION"
          · rw [if_pos h3]
            have hv3 := handleGoalConversion_noFail_visitors ctx
              { db := upsertVisitorDb ctx e db, k := 1 } r0.id e
            unfold findVisitor
            rw [hv3]
            unfold findVisitor at hupd
            exact hupd
          · rw [if_neg h3]
            by_cases h4 : t = "CUSTOM_EVENT"
            · rw [if_pos h4, handleCustomEvent_noFail]
              exact hupd
            · rw [if_neg h4, handleGenericEvent_noFail]
              exact hupd
      · rw [if_neg hss]
        simp


/-- C7 witness: the theorem applied to a concrete first event on the empty
store, discharging every hypothesis. -/
theorem c7_witness :
    findVisitor (upsertVisitorDb exCtx exPage {}) "p" "v" = some (mkVisitorRow exCtx exPage)
      ∧ (mkVisitorRow exCtx exPage).visitCount = 1
      ∧ (mkVisitorRow exCtx exPage).pageViews = 1
      ∧ (mkVisitorRow exCtx exPage).firstSeen = exPage.timestamp
      ∧ (mkVisitorRow exCtx exPage).lastSeen = exPage.timestamp :=
  (c7_visitor_lifecycle exCtx {} exPage "p" "v" "PAGE_VIEW"
    rfl (by decide) rfl (by decide) rfl (by decide)).1 rfl

theorem handleExperimentView_noFail_ok (ctx : Ctx) (s : St) (vid : String)
    (e : IncomingEvent) :
    (handleExperimentView neverFail ctx s vid e).2 = true := by
  unfold handleExperimentView
  cases hb : (blankS e.experimentId || blankS e.variantId) with
  | false =>
      simp only [hb, Bool.false_eq_true, if_false]
      cases hfa : findAssignment s.db vid (e.experimentId.getD "") with
      | none =>
          simp only [hfa, wr_noFail, updateDailyStat_noFail, if_true]
      | some a =>
          simp only [hfa, wr_noFail, if_true]
  | true =>
      simp only [hb, if_true]

theorem handleGoalConversion_noFail_ok (ctx : Ctx) (s : St) (vid : String)
    (e : IncomingEvent) :
    (handleGoalConversion neverFail ctx s vid e).2 = true := by
  unfold handleGoalConversion
  cases hb : (blankS e.goalId || e.attributedExperiments.isNone
      || (e.attributedExperiments.getD []).isEmpty) with
  | false =>
      simp only [hb, Bool.false_eq_true, if_false]
      rw [goalConvLoop_noFail_eq]
  | true =>
      simp only [hb, if_true]

theorem processEvent_noFail_ok (ctx : Ctx) (db : DB) (e : IncomingEvent) :
    (processEvent neverFail ctx { db := db, k := 0 } e).2 = true := by
  cases hreq : (blankS e.projectId || blankS e.visitorId || blankS e.eventType) with
  | true =>
      unfold processEvent
      simp only [hreq, if_true]
  | false =>
      rw [processEvent_noFail_route ctx db e hreq]
      by_cases h1 : e.eventType.getD "" = "SESSION_START"
      · rw [if_pos h1, handleSessionStart_noFail]
      · rw [if_neg h1]
        by_cases h2 : e.eventType.getD "" = "EXPERIMENT_VIEW"
        · rw [if_pos h2]
          exact handleExperimentView_noFail_ok ctx _ _ e
        · rw [if_neg h2]
          by_cases h3 : e.eventType.getD "" = "GOAL_CONVERSION"
          · rw [if_pos h3]
            exact handleGoalConversion_noFail_ok ctx _ _ e
          · rw [if_neg h3]
            by_cases h4 : e.eventType.getD "" = "CUSTOM_EVENT"
            · rw [if_pos h4, handleCustomEvent_noFail]
            · rw [if_neg h4, handleGenericEvent_noFail]

theorem runEvents_noFail (ctx : Ctx) :
    ∀ (events : List IncomingEvent) (db : DB) (i : Nat),
    runEvents (fun _ => neverFail) ctx db events i = (events.foldl (run1 ctx) db, 0) := by
  intro events
  induction events with
  | nil => intro db i; rfl
  | cons e rest ih =>
      intro db i
      unfold runEvents
      cases hpe : processEvent neverFail ctx { db := db, k := 0 } e with
      | mk s ok =>
          have hok := processEvent_noFail_ok ctx db e
          rw [hpe] at hok
          simp only at hok
          have hdb : s.db = run1 ctx db e := by
            unfold run1
            rw [hpe]
          simp only [hpe]
          rw [ih s.db (i + 1), hdb]
          simp [hok, List.foldl_cons]

/-- C6 (confirmed): a decoded record is always emitted as accepted (`Ok`)
with its original body no matter how many of its events fail while being
handled; an event whose storage operations all succeed completes fully, and
with no failures at all the record applies every event's full effect in
order and logs zero failures. -/
theorem c6_record_accepted_despite_failures (ψ : Nat → Oracle) (ctx : Ctx) (db : DB)
    (events : List IncomingEvent) (rid bodyData : String) :
    (handleDecodedRecord ψ ctx db events rid bodyData).2
        = { recordId := rid, result := "Ok", data := bodyData }
      ∧ (∀ (d : DB) (e : IncomingEvent),
          (processEvent neverFail ctx { db := d, k := 0 } e).2 = true)
      ∧ (handleDecodedRecord (fun _ => neverFail) ctx db events rid bodyData).1
          = events.foldl (run1 ctx) db
      ∧ (runEvents (fun _ => neverFail) ctx db events 0).2 = 0 := by
  refine ⟨rfl, fun d e => processEvent_noFail_ok ctx d e, ?_, ?_⟩
  · unfold handleDecodedRecord
    rw [runEvents_noFail]
  · rw [runEvents_noFail]

/-- C5 counterexample: with the LiveLog write of the first attribution
failing (operation slot 6: upsert 0, then rows 1–5, LiveLog 6) and every
other operation succeeding, a two-attribution GOAL_CONVERSION applies only
the first attribution's non-LiveLog effects: the handler throws (the error
is not caught at the LiveLog site), the second attribution is abandoned, and
only 1 of the 2 GoalConversion rows is written. -/
theorem c5_counterexample :
    (processEvent (fun j => decide (j = 6)) exCtx { db := {}, k := 0 } exConv2).2 = false
      ∧ (processEvent (fun j => decide (j = 6)) exCtx
          { db := {}, k := 0 } exConv2).1.db.goalConversions.length = 1
      ∧ ¬((processEvent (fun j => decide (j = 6)) exCtx
          { db := {}, k := 0 } exConv2).1.db.goalConversions.length = 2)
      ∧ (processEvent (fun j => decide (j = 6)) exCtx
          { db := {}, k := 0 } exConv2).1.db.liveLogs.length = 0 := by
  refine ⟨by decide, by decide, by decide, by decide⟩

/-- C5 (amended): a LiveLog write failure inside the goal-conversion
attribution loop is not swallowed at the write site: the loop aborts, the
already-written effects of the current attribution remain (one GoalConversion
row), no LiveLog row is written, and the remaining attributions are
abandoned; the exception is only caught by the per-event handler, so the
record is still accepted. -/
theorem c5_livelog_failure_aborts_event (φ : Oracle) (ctx : Ctx) (vid : String)
    (e : IncomingEvent) (s : St) (a : Attribution) (rest : List Attribution)
    (h0 : φ s.k = false) (h1 : φ (s.k + 1) = false) (h2 : φ (s.k + 1 + 1) = false)
    (h3 : φ (s.k + 1 + 1 + 1) = false) (h4 : φ (s.k + 1 + 1 + 1 + 1) = false)
    (h5 : φ (s.k + 1 + 1 + 1 + 1 + 1) = true) :
    (goalConvLoop φ ctx vid e s (a :: rest)).2 = false
      ∧ (goalConvLoop φ ctx vid e s (a :: rest)).1.db.goalConversions.length
          = s.db.goalConversions.length + 1
      ∧ (goalConvLoop φ ctx vid e s (a :: rest)).1.db.liveLogs = s.db.liveLogs := by
  simp only [goalConvLoop, wr, updateDailyStat, h0, h1, h2, h3, h4, h5,
    Bool.false_eq_true, if_false, if_true]
  simp [appendGoalConversion, incVariantConversions, incExpConversions, incExpGoal,
    updateDailyStatDb]

/-- C5 witness: the amended theorem applied to a concrete two-attribution
conversion with the oracle failing exactly at operation slot 5 (the first
attribution's LiveLog write when the loop starts at slot 0). -/
theorem c5_witness :
    (goalConvLoop (fun j => decide (j = 5)) exCtx "p:v" exConv2 { db := {}, k := 0 }
        ({ experimentId := "e1", variantId := "w1" }
          :: [{ experimentId := "e1", variantId := "w2" }])).2 = false
      ∧ (goalConvLoop (fun j => decide (j = 5)) exCtx "p:v" exConv2 { db := {}, k := 0 }
          ({ experimentId := "e1", variantId := "w1" }
            :: [{ experimentId := "e1", variantId := "w2" }])).1.db.goalConversions.length
          = ({ db := ({} : DB), k := 0 } : St).db.goalConversions.length + 1
      ∧ (goalConvLoop (fun j => decide (j = 5)) exCtx "p:v" exConv2 { db := {}, k := 0 }
          ({ experimentId := "e1", variantId := "w1" }
            :: [{ experimentId := "e1", variantId := "w2" }])).1.db.liveLogs
          = ({ db := ({} : DB), k := 0 } : St).db.liveLogs :=
  c5_livelog_failure_aborts_event (fun j => decide (j = 5)) exCtx "p:v" exConv2
    { db := {}, k := 0 } { experimentId := "e1", variantId := "w1" }
    [{ experimentId := "e1", variantId := "w2" }]
    (by decide) (by decide) (by decide) (by decide) (by decide) (by decide)

theorem handleExperimentView_noFail_dailyStats (ctx : Ctx) (s : St) (vid : String)
    (e : IncomingEvent) :
    (handleExperimentView neverFail ctx s vid e).1.db.dailyStats
      = if (blankS e.experimentId || blankS e.variantId) = true
        then s.db.dailyStats
        else
          match findAssignment s.db vid (e.experimentId.getD "") with
          | some _ => s.db.dailyStats
          | none =>
              updDailyList (dayKeyLocal ctx.now ctx.tz) (e.experimentId.getD "")
                StatField.impressions none s.db.dailyStats := by
  unfold handleExperimentView
  cases hb : (blankS e.experimentId || blankS e.variantId) with
  | false =>
      simp only [hb, Bool.false_eq_true, if_false]
      cases hfa : findAssignment s.db vid (e.experimentId.getD "") with
      | none =>
          simp only [hfa, wr_noFail, updateDailyStat_noFail, if_true]
          rfl
      | some a =>
          simp only [hfa, wr_noFail, if_true]
          rfl
  | true =>
      simp only [hb, if_true]

theorem handleGoalConversion_noFail_dailyStats (ctx : Ctx) (s : St) (vid : String)
    (e : IncomingEvent) :
    (handleGoalConversion neverFail ctx s vid e).1.db.dailyStats
      = if (blankS e.goalId || e.attributedExperiments.isNone
            || (e.attributedExperiments.getD []).isEmpty) = true
        then s.db.dailyStats
        else
          (e.attributedExperiments.getD []).foldl
            (fun ds a => updDailyList (dayKeyLocal ctx.now ctx.tz) a.experimentId
              StatField.conversions e.value ds)
            s.db.dailyStats := by
  unfold handleGoalConversion
  cases hb : (blankS e.goalId || e.attributedExperiments.isNone
      || (e.attributedExperiments.getD []).isEmpty) with
  | false =>
      simp only [hb, Bool.false_eq_true, if_false]
      rw [goalConvLoop_noFail_eq]
      exact convFold_dailyStats ctx vid e (e.attributedExperiments.getD []) s.db
  | true =>
      simp only [hb, if_true]

theorem run1_dailyStats_timestamp_indep (ctx : Ctx) (db : DB) (e : IncomingEvent) (ts : Int) :
    (run1 ctx db { e with timestamp := ts }).dailyStats = (run1 ctx db e).dailyStats := by
  cases hreq : (blankS e.projectId || blankS e.visitorId || blankS e.eventType) with
  | true =>
      unfold run1 processEvent
      simp only [hreq, if_true]
  | false =>
      have hr1 := processEvent_noFail_route ctx db e hreq
      have hr2 := processEvent_noFail_route ctx db { e with timestamp := ts } hreq
      unfold run1
      rw [hr1, hr2]
      by_cases h1 : e.eventType.getD "" = "SESSION_START"
      · have h1' : ({ e with timestamp := ts } : IncomingEvent).eventType.getD ""
            = "SESSION_START" := h1
        rw [if_pos h1, if_pos h1', handleSessionStart_noFail, handleSessionStart_noFail]
        simp [appendEvent, incVisitCount]
      · have h1' : ¬(({ e with timestamp := ts } : IncomingEvent).eventType.getD ""
            = "SESSION_START") := h1
        rw [if_neg h1, if_neg h1']
        by_cases h2 : e.eventType.getD "" = "EXPERIMENT_VIEW"
        · have h2' : ({ e with timestamp := ts } : IncomingEvent).eventType.getD ""
              = "EXPERIMENT_VIEW" := h2
          rw [if_pos h2, if_pos h2',
            handleExperimentView_noFail_dailyStats, handleExperimentView_noFail_dailyStats]
          simp [findAssignment_upsertVisitorDb]
        · have h2' : ¬(({ e with timestamp := ts } : IncomingEvent).eventType.getD ""
              = "EXPERIMENT_VIEW") := h2
          rw [if_neg h2, if_neg h2']
          by_cases h3 : e.eventType.getD "" = "GOAL_CONVERSION"
          · have h3' : ({ e with timestamp := ts } : IncomingEvent).eventType.getD ""
                = "GOAL_CONVERSION" := h3
            rw [if_pos h3, if_pos h3',
              handleGoalConversion_noFail_dailyStats, handleGoalConversion_noFail_dailyStats]
            simp
          · have h3' : ¬(({ e with timestamp := ts } : IncomingEvent).eventType.getD ""
                = "GOAL_CONVERSION") := h3
            rw [if_neg h3, if_neg h3']
            by_cases h4 : e.eventType.getD "" = "CUSTOM_EVENT"
            · have h4' : ({ e with timestamp := ts } : IncomingEvent).eventType.getD ""
                  = "CUSTOM_EVENT" := h4
              rw [if_pos h4, if_pos h4', handleCustomEvent_noFail, handleCustomEvent_noFail]
              simp [appendEvent]
            · have h4' : ¬(({ e with timestamp := ts } : IncomingEvent).eventType.getD ""
                  = "CUSTOM_EVENT") := h4
              rw [if_neg h4, if_neg h4', handleGenericEvent_noFail, handleGenericEvent_noFail]
              simp [appendEvent]

/-- C1 counterexample: a first-view EXPERIMENT_VIEW event whose timestamp is
the epoch (UTC day 0), processed when the wall clock reads day 2, creates its
ExperimentDailyStat row keyed by the processing day (172800000 ms), not by
the event timestamp's UTC calendar date (0) as the claim states. -/
theorem c1_counterexample :
    (run1 exCtx {} exView).dailyStats.map (fun r => r.date) = [172800000]
      ∧ specDailyStatKey exView.timestamp = 0
      ∧ (run1 exCtx {} exView).dailyStats.map (fun r => r.date)
          ≠ [specDailyStatKey exView.timestamp] := by
  refine ⟨by decide, by decide, by decide⟩

/-- C1 (amended): every daily-stat touch creates or increments the row keyed
by (experimentId, d) where d is the processing wall clock truncated to the
server's local-time midnight (`setHours(0,0,0,0)` on `new Date()`), and the
daily-stat table written by event processing is independent of the event's
own timestamp. -/
theorem c1_daily_key_from_processing_clock (ctx : Ctx) (x : String) (field : StatField)
    (rev : Option Int) (db : DB) :
    (∀ y d, dailyImp (updateDailyStatDb ctx x field rev db) y d
        = dailyImp db y d
          + (if y = x ∧ d = dayKeyLocal ctx.now ctx.tz ∧ field = StatField.impressions
             then 1 else 0))
      ∧ (∀ y d, dailyConv (updateDailyStatDb ctx x field rev db) y d
          = dailyConv db y d
            + (if y = x ∧ d = dayKeyLocal ctx.now ctx.tz ∧ field = StatField.conversions
               then 1 else 0))
      ∧ (∀ (e : IncomingEvent) (ts : Int),
          (run1 ctx db { e with timestamp := ts }).dailyStats
            = (run1 ctx db e).dailyStats) := by
  refine ⟨?_, ?_, ?_⟩
  · intro y d
    unfold dailyImp updateDailyStatDb
    exact dailyImpL_updDailyList (dayKeyLocal ctx.now ctx.tz) x field rev db.dailyStats y d
  · intro y d
    unfold dailyConv updateDailyStatDb
    exact dailyConvL_updDailyList (dayKeyLocal ctx.now ctx.tz) x field rev db.dailyStats y d
  · intro e ts
    exact run1_dailyStats_timestamp_indep ctx db e ts
